import Mathlib

/-!
Verification of the XLA dispatch-and-execution layer of this repository
(`jax/interpreters/xla.py`, `jax/lib/xla_bridge.py`) via a shallow embedding
in Lean.  Python exceptions are modelled with `Except PyErr`; the backend
runtime (buffer creation, compiled execution) is opaque in the source and is
modelled as explicit state (a fresh-id allocator for buffers) and as function
parameters (for compiled executables).
-/

set_option autoImplicit false

namespace JaxXla

/-- Numpy element types relevant to `xla_bridge.canonicalize_dtype` and the
handler tables.  `numpy.issubdtype(·, numpy.floating)` is true exactly for the
three float types (not for complex or integer types). -/
inductive Dtype where
  | bool
  | int8 | int16 | int32 | int64
  | uint8 | uint16 | uint32 | uint64
  | float16 | float32 | float64
  | complex64 | complex128
deriving DecidableEq, Repr

/-- Whether `numpy.issubdtype(d, numpy.floating)` holds (used by
`_check_nans`, `jax/interpreters/xla.py` line 178). -/
def Dtype.isFloating : Dtype → Bool
  | .float16 => true
  | .float32 => true
  | .float64 => true
  | _ => false

/-- Embeds the module-level dict `_dtype_to_32bit_dtype` of
`jax/lib/xla_bridge.py` (lines 149-154): the four 64-bit element types and
their 32-bit counterparts. -/
def dtypeTo32bitDtype : List (Dtype × Dtype) :=
  [(.int64, .int32), (.uint64, .uint32), (.float64, .float32),
   (.complex128, .complex64)]

/-- Embeds `xla_bridge.canonicalize_dtype` (lines 157-165): with the
`jax_enable_x64` flag set the dtype is returned unchanged; otherwise the
64-bit table is consulted, defaulting to the dtype itself. -/
def canonicalize_dtype (enableX64 : Bool) (dtype : Dtype) : Dtype :=
  if enableX64 then dtype
  else (dtypeTo32bitDtype.lookup dtype).getD dtype

/-- Scalar cells of a host array: either an ordinary (finite) number or a NaN.
Only NaN-ness of cells is observable by the code under verification
(`_check_nans`), so numeric values are carried abstractly as integers. -/
inductive ScalarVal where
  | fin (v : Int)
  | nan
deriving DecidableEq, Repr

/-- Whether `numpy.isnan` holds of the cell. -/
def ScalarVal.isNan : ScalarVal → Bool
  | .fin _ => false
  | .nan => true

/-- A host (numpy) ndarray: shape, element type, and cells in row-major
order. -/
structure HostArray where
  shape : List Nat
  dtype : Dtype
  data : List ScalarVal
deriving DecidableEq, Repr

/-- Python exceptions raised by the code under verification.  `nameError`
carries the undefined identifier being evaluated. -/
inductive PyErr where
  | typeError (msg : String)
  | valueError (msg : String)
  | nameError (name : String)
  | notImplementedError (msg : String)
  | floatingPointError (msg : String)
  | attributeError (msg : String)
  | keyError (key : String)
deriving DecidableEq, Repr

/-- Whether the exception is a `FloatingPointError` (the class caught by
`_xla_call_impl`, `jax/interpreters/xla.py` line 335). -/
def PyErr.isFloatingPointError : PyErr → Bool
  | .floatingPointError _ => true
  | _ => false

/-- Abstract values (`core.AbstractUnit`, `abstract_arrays.ShapedArray`,
`abstract_arrays.ConcreteArray`), as dispatched on by the handler tables of
`jax/interpreters/xla.py`. -/
inductive AVal where
  | abstractUnit
  | shaped (shape : List Nat) (dtype : Dtype)
  | concrete (shape : List Nat) (dtype : Dtype) (data : List ScalarVal)
deriving DecidableEq, Repr

/-- The `shape` attribute of a `ShapedArray`/`ConcreteArray` abstract value
(read by the `DeviceArray.shape` property, line 499). -/
def AVal.shapeD : AVal → List Nat
  | .abstractUnit => []
  | .shaped s _ => s
  | .concrete s _ _ => s

/-- The `dtype` attribute of a `ShapedArray`/`ConcreteArray` abstract value
(read by the `DeviceArray.dtype` property, line 503). -/
def AVal.dtypeD : AVal → Dtype
  | .abstractUnit => .bool
  | .shaped _ d => d
  | .concrete _ d _ => d

/-- A backend device buffer: the device ordinal it lives on, its host-visible
contents (`none` stands for the empty-tuple buffer produced for `core.Unit`),
and an identity tag distinguishing physical buffer objects. -/
structure Buffer where
  device : Nat
  contents : Option HostArray
  id : Nat
deriving DecidableEq, Repr

/-- The opaque backend runtime, reduced to the one piece of state the claims
observe: a fresh-id allocator for newly created buffers. -/
structure Backend where
  nextId : Nat
deriving DecidableEq, Repr

/-- Creates a buffer from a host value on a device ordinal
(`xla_client.Buffer.from_pyval`): a fresh buffer object on that device. -/
def bufferFromPyval (be : Backend) (contents : Option HostArray) (deviceNum : Nat) :
    Buffer × Backend :=
  (⟨deviceNum, contents, be.nextId⟩, ⟨be.nextId + 1⟩)

/-- Copies a buffer to another device (`device_buffer.copy_to_device`): a
fresh buffer object with the same contents on the target device. -/
def copyToDevice (be : Backend) (b : Buffer) (deviceNum : Nat) : Buffer × Backend :=
  (⟨deviceNum, b.contents, be.nextId⟩, ⟨be.nextId + 1⟩)

end JaxXla

namespace JaxXla

/-- The state of a `DeviceArray` wrapper (`jax/interpreters/xla.py` lines
474-536): its abstract value, its backend buffer (`none` once deleted, since
`delete` assigns `self.device_buffer = None`), and the lazily cached host
copy `_npy_value`. -/
structure DeviceArrayM where
  aval : AVal
  deviceBuffer : Option Buffer
  npyValue : Option HostArray
deriving DecidableEq, Repr

namespace DeviceArrayM

/-- Embeds `DeviceValue._check_if_deleted` (lines 456-458): raises
`ValueError` when the buffer slot is `None`. -/
def checkIfDeleted (x : DeviceArrayM) : Except PyErr Unit :=
  match x.deviceBuffer with
  | none => .error (.valueError "DeviceValue has been deleted.")
  | some _ => .ok ()

/-- Embeds `DeviceArray.delete` (lines 523-536): it calls
`self.device_buffer.delete()` without a deletion check first, so on an
already-deleted wrapper the attribute access `None.delete` raises
`AttributeError`; otherwise the buffer slot and the cached host value are
cleared. -/
def delete (x : DeviceArrayM) : Except PyErr DeviceArrayM :=
  match x.deviceBuffer with
  | none => .error (.attributeError "NoneType object has no attribute delete")
  | some _ => .ok { x with deviceBuffer := none, npyValue := none }

/-- Embeds the `DeviceArray._value` property (lines 489-495): checks for
deletion, then materializes the host copy at most once via the backend
transfer `toPy` and caches it. -/
def value (toPy : Buffer → HostArray) (x : DeviceArrayM) :
    Except PyErr (HostArray × DeviceArrayM) :=
  match x.deviceBuffer with
  | none => .error (.valueError "DeviceValue has been deleted.")
  | some b =>
    match x.npyValue with
    | some v => .ok (v, x)
    | none => .ok (toPy b, { x with npyValue := some (toPy b) })

/-- Embeds `DeviceValue.block_until_ready` (lines 460-468): deletion check,
then a backend wait with no observable result. -/
def blockUntilReady (x : DeviceArrayM) : Except PyErr Unit :=
  match x.deviceBuffer with
  | none => .error (.valueError "DeviceValue has been deleted.")
  | some _ => .ok ()

/-- Embeds `DeviceArray.copy_to_host_async` (lines 517-521): deletion check,
then an asynchronous transfer request with no observable result. -/
def copyToHostAsync (x : DeviceArrayM) : Except PyErr Unit :=
  match x.deviceBuffer with
  | none => .error (.valueError "DeviceValue has been deleted.")
  | some _ => .ok ()

/-- Embeds the `DeviceArray.shape` property (lines 497-499): it reads
`self.aval.shape` and performs no deletion check. -/
def shapeProp (x : DeviceArrayM) : Except PyErr (List Nat) :=
  .ok x.aval.shapeD

/-- Embeds the `DeviceArray.dtype` property (lines 501-503): it reads
`self.aval.dtype` and performs no deletion check. -/
def dtypeProp (x : DeviceArrayM) : Except PyErr Dtype :=
  .ok x.aval.dtypeD

end DeviceArrayM

/-- Python values flowing through the handler tables of
`jax/interpreters/xla.py`: `core.Unit`, numpy ndarrays, `DeviceArray`
wrappers, and a catch-all for types absent from every table. -/
inductive PyVal where
  | unit
  | array (a : HostArray)
  | deviceArray (d : DeviceArrayM)
  | other (tag : String)
deriving DecidableEq, Repr

/-- Embeds `onp.asarray(x, xb.canonicalize_dtype(onp.result_type(x)))`
(`_canonicalize_ndarray_dtype`, line 99-100): the dtype is canonicalized;
the cells are carried over (a numeric cast does not change NaN-ness). -/
def asarrayCanon (enableX64 : Bool) (a : HostArray) : HostArray :=
  { a with dtype := canonicalize_dtype enableX64 a.dtype }

/-- Embeds `xla.canonicalize_dtype` (lines 92-102 plus the `DeviceArray`
registration at line 604): dispatch on the runtime type through
`canonicalize_dtype_handlers`; `core.Unit` and `DeviceArray` map to
themselves, ndarrays get their dtype canonicalized, unregistered types raise
`TypeError`. -/
def canonicalizeDtypePy (enableX64 : Bool) (x : PyVal) : Except PyErr PyVal :=
  match x with
  | .unit => .ok .unit
  | .array a => .ok (.array (asarrayCanon enableX64 a))
  | .deviceArray d => .ok (.deviceArray d)
  | .other t => .error (.typeError ("No canonicalize_dtype handler for type: " ++ t))

/-- Embeds `xla.device_put` (lines 77-89) together with the registered
handlers: the value is dtype-canonicalized first, then dispatched through
`device_put_handlers`.  `core.Unit` and ndarrays become fresh backend buffers
(`Buffer.from_pyval`); a `DeviceArray` reuses its existing buffer when it
already lives on the requested ordinal and is otherwise copied
(`_device_put_device_array`, lines 609-614); unregistered types raise
`TypeError`.  A deleted `DeviceArray` hits `None.device()` and raises
`AttributeError`. -/
def device_put (enableX64 : Bool) (be : Backend) (x : PyVal) (deviceNum : Nat) :
    Except PyErr (Buffer × Backend) :=
  match canonicalizeDtypePy enableX64 x with
  | .error e => .error e
  | .ok x2 =>
    match x2 with
    | .unit => .ok (bufferFromPyval be none deviceNum)
    | .array a => .ok (bufferFromPyval be (some a) deviceNum)
    | .deviceArray d =>
      match d.deviceBuffer with
      | none => .error (.attributeError "NoneType object has no attribute device")
      | some b =>
        if b.device = deviceNum then .ok (b, be)
        else .ok (copyToDevice be b deviceNum)
    | .other t => .error (.typeError ("No device_put handler for type: " ++ t))

/-- Modelled from the spec: `make_shaped_array` from `jax.abstract_arrays`
(not under src/), the registered abstractify handler for ndarrays.  Per the
spec (section 4.1) it maps a host value to a `Shaped` abstract value, with the
element type canonicalized by the global precision policy. -/
def makeShapedArray (enableX64 : Bool) (a : HostArray) : AVal :=
  .shaped a.shape (canonicalize_dtype enableX64 a.dtype)

/-- Embeds `xla.abstractify` (lines 104-112) plus the `DeviceArray`
registration at line 603: `core.Unit` maps to the abstract unit, ndarrays go
through `make_shaped_array`, a `DeviceArray` reports its stored `aval`, and
unregistered types raise `TypeError`. -/
def abstractify (enableX64 : Bool) (x : PyVal) : Except PyErr AVal :=
  match x with
  | .unit => .ok .abstractUnit
  | .array a => .ok (makeShapedArray enableX64 a)
  | .deviceArray d => .ok d.aval
  | .other t => .error (.typeError ("No abstraction handler for type: " ++ t))

/-- Embeds `xla.aval_to_result_handler` (lines 66-75): `AbstractUnit` yields
the constant-unit handler; `ShapedArray` and `ConcreteArray` yield
`partial(DeviceArray, aval)`, i.e. a wrapper around the raw output buffer
carrying that abstract value, with no cached host copy. -/
def aval_to_result_handler (a : AVal) : Except PyErr (Buffer → PyVal) :=
  match a with
  | .abstractUnit => .ok (fun _ => .unit)
  | .shaped _ _ => .ok (fun buf => .deviceArray ⟨a, some buf, none⟩)
  | .concrete _ _ _ => .ok (fun buf => .deviceArray ⟨a, some buf, none⟩)

/-- Embeds `xla._device_put_impl` (lines 617-624): abstractify the argument
(re-raising a `TypeError` for invalid JAX types), build the result handler
for that abstract value, transfer with `device_put`, and wrap the resulting
buffer. -/
def device_put_impl (enableX64 : Bool) (be : Backend) (x : PyVal) (deviceNum : Nat) :
    Except PyErr (PyVal × Backend) :=
  match abstractify enableX64 x with
  | .error _ => .error (.typeError "Argument is not a valid JAX type")
  | .ok a =>
    match aval_to_result_handler a with
    | .error e => .error e
    | .ok handler =>
      match device_put enableX64 be x deviceNum with
      | .error e => .error e
      | .ok (buf, be2) => .ok (handler buf, be2)

end JaxXla

namespace JaxXla

/-- Embeds `AxisEnv = namedtuple("AxisEnv", ["nreps", "names", "sizes"])`
(`jax/interpreters/xla.py` line 287). -/
structure AxisEnv where
  nreps : Nat
  names : List String
  sizes : List Nat
deriving DecidableEq, Repr

/-- The `axis_name` equation parameter consulted by the collective branch:
the source accepts a single axis name or a list/tuple of names
(`axis_groups`, lines 295-300). -/
inductive AxisName where
  | single (s : String)
  | multi (ss : List String)
deriving DecidableEq, Repr

/-- Embeds `axis_read` (lines 292-293): the largest index at which the name
occurs in the environment; `none` models the `ValueError` that Python's
`max` raises on an empty sequence when the name is absent. -/
def axis_read (env : AxisEnv) (name : String) : Option Nat :=
  ((List.range env.names.length).filter
    (fun i => env.names.getD i "" = name)).max?

/-- Product of a list of dimensions (`util.prod`). -/
def prodl (l : List Nat) : Nat := l.foldr (· * ·) 1

/-- Row-major strides of a shape: entry `j` is the product of the dimensions
after position `j`. -/
def rmStrides : List Nat → List Nat
  | [] => []
  | _ :: rest => prodl rest :: rmStrides rest

/-- Row-major multi-index of flat position `n` in an array of the given
shape (`numpy.unravel_index`). -/
def unravel (spec : List Nat) (n : Nat) : List Nat :=
  (List.zip (rmStrides spec) spec).map (fun p => (n / p.1) % p.2)

/-- Flat row-major position of a multi-index in an array of the given shape
(`numpy.ravel_multi_index`). -/
def ravel (spec : List Nat) (idx : List Nat) : Nat :=
  (List.zip (rmStrides spec) idx).foldl (fun acc p => acc + p.1 * p.2) 0

/-- Axis order produced by `numpy.moveaxis(a, meshAxes, range(len(meshAxes)))`:
the moved axes come first, the remaining axes keep their original order. -/
def movedOrder (ndim : Nat) (meshAxes : List Nat) : List Nat :=
  meshAxes ++ (List.range ndim).filter (fun a => ¬ meshAxes.contains a)

/-- Value at flat row-major position `p` of
`numpy.moveaxis(iota, meshAxes, range(len(meshAxes)))` where
`iota = numpy.arange(prod fullSpec).reshape(fullSpec)`: unravel `p` in the
permuted shape, permute the multi-index back, and ravel in the original
shape. -/
def moveaxisFlat (fullSpec : List Nat) (meshAxes : List Nat) (p : Nat) : Nat :=
  let order := movedOrder fullSpec.length meshAxes
  let newSpec := order.map (fun a => fullSpec.getD a 0)
  let m := unravel newSpec p
  let o := (List.range fullSpec.length).map (fun a => m.getD (order.indexOf a) 0)
  ravel fullSpec o

/-- Embeds `_axis_groups` (lines 302-310): append the trailing replication
dimension, build the iota mesh, move the grouped axes to the front, reshape
to `(prod of grouped sizes, -1)`, and return the transposed rows as groups.
`none` models the `assert not ragged` failure when the mesh sizes do not
divide the replica count. -/
def axisGroupsRaw (nrep : Nat) (meshSpec : List Nat) (meshAxes : List Nat) :
    Option (List (List Nat)) :=
  if nrep % prodl meshSpec ≠ 0 then none
  else
    let trailing := nrep / prodl meshSpec
    let fullSpec := meshSpec ++ [trailing]
    let g := prodl (meshAxes.map (fun a => fullSpec.getD a 0))
    let r := prodl fullSpec / g
    some ((List.range r).map (fun t =>
      (List.range g).map (fun i => moveaxisFlat fullSpec meshAxes (i * r + t))))

/-- Embeds `axis_groups` (lines 295-300): resolve the axis name (or names)
to mesh-axis positions via `axis_read`, then partition with
`_axis_groups`. -/
def axis_groups (env : AxisEnv) (name : AxisName) : Option (List (List Nat)) :=
  match name with
  | .multi ss => do
    let meshAxes ← ss.mapM (axis_read env)
    axisGroupsRaw env.nreps env.sizes meshAxes
  | .single s => do
    let a ← axis_read env s
    axisGroupsRaw env.nreps env.sizes [a]

end JaxXla

namespace JaxXla

/-- A `core.Primitive`: process-wide singleton identified by `pid` (object
identity in Python), with a display name and a `multiple_results` flag. -/
structure Primitive where
  pid : Nat
  name : String
  multipleResults : Bool
deriving DecidableEq, Repr

/-- A `core.Jaxpr`.  Its internal structure lives in `jax/core.py`, which is
not under src/; the claims here use jaxprs only as identities carried through
dispatch and compilation, so they are modelled as opaque tokens. -/
structure Jaxpr where
  jid : Nat
deriving DecidableEq, Repr

/-- One IR equation, restricted to the fields the lowering dispatch of
`_jaxpr_computation` reads: the primitive, the optional `axis_name` entry of
`eqn.params` (consulted by the collective branch), and
`eqn.bound_subjaxprs`, a list of (sub-jaxpr, constant bindings, free-variable
bindings) triples (consulted by the call-style branch). -/
structure Eqn where
  primitive : Primitive
  axisName : Option AxisName
  boundSubjaxprs : List (Jaxpr × List Nat × List Nat)
deriving DecidableEq, Repr

/-- The five translation tables of `jax/interpreters/xla.py` (lines 395-399),
keyed by primitive identity.  `backend_specific_translations` is a
`defaultdict(dict)`: an unknown platform maps to the empty table. -/
structure Registry where
  translations : List Nat
  parallelTranslations : List Nat
  initialStyleTranslations : List Nat
  callTranslations : List Nat
  backendSpecificTranslations : List (String × List Nat)
deriving DecidableEq, Repr

/-- The platform-specific table `backend_specific_translations[platform]`
(empty for an unregistered platform, as for a `defaultdict`). -/
def Registry.backendFor (reg : Registry) (platform : String) : List Nat :=
  (reg.backendSpecificTranslations.lookup platform).getD []

/-- Which translation rule the equation dispatch of `_jaxpr_computation`
selects, together with the extra data handed to the rule: the axis
environment for initial-style rules, the computed replica groups for
collective rules, and the bound sub-jaxpr plus the axis environment for
call-style rules. -/
inductive RuleChoice where
  | backendSpecific (platform : String)
  | generic
  | initialStyle (env : AxisEnv)
  | parallel (replicaGroups : List (List Nat))
  | callStyle (subjaxpr : Jaxpr) (env : AxisEnv)
deriving DecidableEq, Repr

/-- Embeds the per-equation rule dispatch of `_jaxpr_computation`
(`jax/interpreters/xla.py` lines 255-275): the platform-specific table is
consulted first, then the generic table, then the initial-style table (whose
rule receives the axis environment), then the collective table (computing
`axis_groups(axis_env, eqn.params[axis_name])` before invoking the rule),
then the call-style table (destructuring the single bound sub-jaxpr); a
primitive found in no table raises `NotImplementedError` naming it. -/
def eqnRuleDispatch (reg : Registry) (platform : String) (axisEnv : AxisEnv)
    (eqn : Eqn) : Except PyErr RuleChoice :=
  if (reg.backendFor platform).contains eqn.primitive.pid then
    .ok (.backendSpecific platform)
  else if reg.translations.contains eqn.primitive.pid then
    .ok .generic
  else if reg.initialStyleTranslations.contains eqn.primitive.pid then
    .ok (.initialStyle axisEnv)
  else if reg.parallelTranslations.contains eqn.primitive.pid then
    match eqn.axisName with
    | none => .error (.keyError "axis_name")
    | some nm =>
      match axis_groups axisEnv nm with
      | none => .error (.valueError "max() arg is an empty sequence")
      | some gs => .ok (.parallel gs)
  else if reg.callTranslations.contains eqn.primitive.pid then
    match eqn.boundSubjaxprs with
    | [(sub, _, _)] => .ok (.callStyle sub axisEnv)
    | _ => .error (.valueError "too many values to unpack")
  else
    .error (.notImplementedError
      ("XLA translation rule for primitive " ++ eqn.primitive.name ++ " not found"))

/-- A compiled whole-program artifact: the lowered jaxpr plus the
replica/device-assignment compile options
(`built_c.Compile(..., compile_opts, ...)`). -/
structure CompiledArtifact where
  jaxprId : Nat
  numReplicas : Nat
  deviceAssignment : Option (List Nat)
deriving DecidableEq, Repr

/-- Embeds `compile_jaxpr` (`jax/interpreters/xla.py` lines 186-195),
additionally recording the backend calls made, in order.  When the replica
requirement exceeds the device count the source executes
`raise ValueErrr(msg.format(...))` (line 190); `ValueErrr` is an undefined
name, so Python raises `NameError` at that point, before `jaxpr_computation`
or `Compile` is ever reached.  Otherwise the computation is built and
compiled with the replica and device-assignment options. -/
def compile_jaxpr (deviceCount : Nat) (jaxpr : Jaxpr)
    (deviceAssignment : Option (List Nat)) (axisEnv : AxisEnv) :
    Except PyErr CompiledArtifact × List String :=
  if axisEnv.nreps > deviceCount then
    (.error (.nameError "ValueErrr"), [])
  else
    (.ok ⟨jaxpr.jid, axisEnv.nreps, deviceAssignment⟩,
     ["jaxpr_computation", "Compile"])

/-- Embeds `_check_nans` (`jax/interpreters/xla.py` lines 174-181) on one
output buffer: an empty-tuple buffer passes the `assert`; an array buffer
whose element type is floating and whose cells contain a NaN raises
`FloatingPointError` naming the producing primitive; any other buffer
passes. -/
def checkNansBuf (name : String) (b : Buffer) : Except PyErr Unit :=
  match b.contents with
  | none => .ok ()
  | some a =>
    if a.dtype.isFloating && a.data.any ScalarVal.isNan then
      .error (.floatingPointError ("invalid value (nan) encountered in " ++ name))
    else
      .ok ()

/-- Transfers a list of arguments to device `deviceNum`, threading the
backend state (the list comprehension
`[device_put(x, device_num) for x in args]`). -/
def devicePutList (enableX64 : Bool) (be : Backend) (xs : List PyVal)
    (deviceNum : Nat) : Except PyErr (List Buffer × Backend) :=
  match xs with
  | [] => .ok ([], be)
  | x :: rest =>
    match device_put enableX64 be x deviceNum with
    | .error e => .error e
    | .ok (b, be2) =>
      match devicePutList enableX64 be2 rest deviceNum with
      | .error e => .error e
      | .ok (bs, be3) => .ok (b :: bs, be3)

/-- Embeds `_execute_compiled_primitive` (lines 160-165): place the
arguments on the executable's device, execute, optionally check the output
buffer for NaNs (naming the primitive), and apply the result handler.  The
compiled executable is the opaque function `executeFn` from input buffers to
the raw output buffer. -/
def executeCompiledPrimitive (debugNans enableX64 : Bool) (be : Backend)
    (deviceNum : Nat) (executeFn : List Buffer → Buffer) (primName : String)
    (handler : Buffer → PyVal) (args : List PyVal) : Except PyErr PyVal :=
  match devicePutList enableX64 be args deviceNum with
  | .error e => .error e
  | .ok (inputBufs, _) =>
    let outBuf := executeFn inputBufs
    if debugNans then
      match checkNansBuf primName outBuf with
      | .error e => .error e
      | .ok _ => .ok (handler outBuf)
    else
      .ok (handler outBuf)

/-- Embeds `_execute_compiled` (lines 363-368): place the arguments on the
executable's device, execute and destructure the tuple output into
`out_bufs`, then, when the NaN-detection flag is on, evaluate
`check_nans(xla_call_p, out_buf)` — `out_buf` is an undefined name at that
point (the outputs were bound to `out_bufs`), so Python raises `NameError`;
with the flag off, each result handler is applied to its output buffer.
`executeFn` is the opaque compiled executable, already destructured. -/
def executeCompiled (debugNans enableX64 : Bool) (be : Backend)
    (deviceNum : Nat) (executeFn : List Buffer → List Buffer)
    (handlers : List (Buffer → PyVal)) (args : List PyVal) :
    Except PyErr (List PyVal) :=
  match devicePutList enableX64 be args deviceNum with
  | .error e => .error e
  | .ok (inputBufs, _) =>
    let outBufs := executeFn inputBufs
    if debugNans then
      .error (.nameError "out_buf")
    else
      .ok (List.zipWith (fun h b => h b) handlers outBufs)

/-- Embeds `_xla_call_impl` (`jax/interpreters/xla.py` lines 330-338): the
compiled function is run inside a `try` whose only handler catches
`FloatingPointError`, prints a diagnostic, and re-runs the original
uncompiled trace (`fun.call_wrapped`) once; the fallback's outcome is
returned as is.  `compiledRun` is the outcome of `compiled_fun(*args)` and
`deoptRun` that of `fun.call_wrapped(*args)`; the second component counts
how many times the fallback ran. -/
def xlaCallImpl {V : Type} (compiledRun : Except PyErr V)
    (deoptRun : Except PyErr V) : Except PyErr V × Nat :=
  match compiledRun with
  | .ok v => (.ok v, 0)
  | .error e =>
    if e.isFloatingPointError then (deoptRun, 1)
    else (.error e, 0)

/-- Cache key of `xla_primitive_callable`: the primitive (a process-wide
singleton, compared by identity) together with the abstract argument values
and static parameters; parameters are folded into the abstract-value
signature here. -/
structure PrimKey where
  prim : Primitive
  abstractArgs : List AVal
deriving DecidableEq, Repr

/-- Modelled from the spec: the `@cache()` memoization decorator from
`jax.util` (not under src/) as applied to `xla_primitive_callable`
(`jax/interpreters/xla.py` lines 123-135).  Per the spec (section 4.5) it
memoizes compiled artifacts keyed by primitive identity plus abstract
argument signature, guaranteeing at most one compilation per distinct key.
Artifacts are identified by the id they receive from the allocator, so
returning the stored id models returning the identical object. -/
structure PrimitiveCache where
  entries : List (PrimKey × Nat)
  nextArtifact : Nat
deriving DecidableEq, Repr

/-- Modelled from the spec: one call of the memoized
`xla_primitive_callable`.  On a hit the stored artifact is returned and the
cache is untouched; on a miss the underlying compilation runs once,
producing a fresh artifact that is stored.  The boolean records whether the
compiler was invoked. -/
def xlaPrimitiveCallableCached (c : PrimitiveCache) (k : PrimKey) :
    Nat × PrimitiveCache × Bool :=
  match c.entries.lookup k with
  | some v => (v, c, false)
  | none => (c.nextArtifact, ⟨(k, c.nextArtifact) :: c.entries, c.nextArtifact + 1⟩, true)

end JaxXla

namespace JaxXla

/-- C8: dtype canonicalization maps int64, uint64, float64 and complex128 to
their 32-bit counterparts when the 64-bit toggle is disabled, leaves every
other dtype unchanged, and is the identity on all dtypes when the toggle is
enabled. -/
theorem canonicalize_dtype_policy :
    (∀ d : Dtype, canonicalize_dtype true d = d)
    ∧ canonicalize_dtype false .int64 = .int32
    ∧ canonicalize_dtype false .uint64 = .uint32
    ∧ canonicalize_dtype false .float64 = .float32
    ∧ canonicalize_dtype false .complex128 = .complex64
    ∧ (∀ d : Dtype, d ≠ .int64 → d ≠ .uint64 → d ≠ .float64 → d ≠ .complex128 →
        canonicalize_dtype false d = d) := by
  refine ⟨fun d => rfl, rfl, rfl, rfl, rfl, fun d h1 h2 h3 h4 => ?_⟩
  cases d <;> first | rfl | simp_all

/-- Witness for C8: float32 is not one of the four 64-bit dtypes and is left
unchanged with the toggle disabled. -/
theorem canonicalize_dtype_policy_witness :
    canonicalize_dtype false .float32 = .float32 :=
  canonicalize_dtype_policy.2.2.2.2.2 .float32
    (by decide) (by decide) (by decide) (by decide)

/-- C1: when lowering one equation, the translation rule is looked up in the
fixed order platform-specific, generic, initial-style (invoked with the axis
environment), collective (with replica groups computed from the axis
environment and the axis-name parameter), call-style (using the equation's
bound sub-program); a primitive in none of the tables is a fatal error naming
the primitive. -/
theorem eqn_dispatch_lookup_order (reg : Registry) (platform : String)
    (env : AxisEnv) (eqn : Eqn) :
    ((reg.backendFor platform).contains eqn.primitive.pid = true →
      eqnRuleDispatch reg platform env eqn = .ok (.backendSpecific platform))
    ∧ ((reg.backendFor platform).contains eqn.primitive.pid = false →
       reg.translations.contains eqn.primitive.pid = true →
      eqnRuleDispatch reg platform env eqn = .ok .generic)
    ∧ ((reg.backendFor platform).contains eqn.primitive.pid = false →
       reg.translations.contains eqn.primitive.pid = false →
       reg.initialStyleTranslations.contains eqn.primitive.pid = true →
      eqnRuleDispatch reg platform env eqn = .ok (.initialStyle env))
    ∧ ((reg.backendFor platform).contains eqn.primitive.pid = false →
       reg.translations.contains eqn.primitive.pid = false →
       reg.initialStyleTranslations.contains eqn.primitive.pid = false →
       reg.parallelTranslations.contains eqn.primitive.pid = true →
       ∀ nm gs, eqn.axisName = some nm → axis_groups env nm = some gs →
      eqnRuleDispatch reg platform env eqn = .ok (.parallel gs))
    ∧ ((reg.backendFor platform).contains eqn.primitive.pid = false →
       reg.translations.contains eqn.primitive.pid = false →
       reg.initialStyleTranslations.contains eqn.primitive.pid = false →
       reg.parallelTranslations.contains eqn.primitive.pid = false →
       reg.callTranslations.contains eqn.primitive.pid = true →
       ∀ sub cb fb, eqn.boundSubjaxprs = [(sub, cb, fb)] →
      eqnRuleDispatch reg platform env eqn = .ok (.callStyle sub env))
    ∧ ((reg.backendFor platform).contains eqn.primitive.pid = false →
       reg.translations.contains eqn.primitive.pid = false →
       reg.initialStyleTranslations.contains eqn.primitive.pid = false →
       reg.parallelTranslations.contains eqn.primitive.pid = false →
       reg.callTranslations.contains eqn.primitive.pid = false →
      eqnRuleDispatch reg platform env eqn = .error (.notImplementedError
        ("XLA translation rule for primitive " ++ eqn.primitive.name
          ++ " not found"))) := by
  refine ⟨fun h1 => ?_, fun h1 h2 => ?_, fun h1 h2 h3 => ?_,
    fun h1 h2 h3 h4 nm gs hnm hgs => ?_, fun h1 h2 h3 h4 h5 sub cb fb hsub => ?_,
    fun h1 h2 h3 h4 h5 => ?_⟩ <;>
  simp [eqnRuleDispatch, h1] <;>
  simp_all [eqnRuleDispatch]

/-- Witness for C1: a primitive present only in the generic table dispatches
to the generic rule; a primitive present in no table yields the
`NotImplementedError` naming it. -/
theorem eqn_dispatch_lookup_order_witness :
    eqnRuleDispatch ⟨[7], [], [], [], []⟩ "cpu" ⟨1, [], []⟩
      ⟨⟨7, "add", false⟩, none, []⟩ = .ok .generic
    ∧ eqnRuleDispatch ⟨[], [], [], [], []⟩ "cpu" ⟨1, [], []⟩
      ⟨⟨9, "mul", false⟩, none, []⟩ = .error (.notImplementedError
        ("XLA translation rule for primitive " ++ "mul" ++ " not found")) :=
  ⟨(eqn_dispatch_lookup_order ⟨[7], [], [], [], []⟩ "cpu" ⟨1, [], []⟩
      ⟨⟨7, "add", false⟩, none, []⟩).2.1 (by decide) (by decide),
   (eqn_dispatch_lookup_order ⟨[], [], [], [], []⟩ "cpu" ⟨1, [], []⟩
      ⟨⟨9, "mul", false⟩, none, []⟩).2.2.2.2.2 (by decide) (by decide)
      (by decide) (by decide) (by decide)⟩

/-- C2 (code bug): on a replica-oversubscribed program (8 required replicas,
4 devices) the guard fires before any backend call — the backend-call trace
is empty — but the `raise ValueErrr(...)` on line 190 evaluates the
undefined name `ValueErrr`, so the failure is a `NameError`, not the claimed
`ValueError` naming the replica counts. -/
theorem compile_jaxpr_oversubscription_nameError :
    compile_jaxpr 4 ⟨0⟩ none ⟨8, [], []⟩ = (.error (.nameError "ValueErrr"), [])
    ∧ ∀ msg, (PyErr.nameError "ValueErrr") ≠ .valueError msg :=
  ⟨rfl, fun _ h => nomatch h⟩

/-- C3 (code bug): with the NaN-detection flag enabled, whole-program
execution reaches `check_nans(xla_call_p, out_buf)` where `out_buf` is an
undefined name, so it raises `NameError` rather than the claimed
`FloatingPointError`, even when the sole float output holds a NaN; with the
flag disabled the NaN-carrying output is returned unchanged.  The check
itself (`_check_nans`) and the single-primitive path
(`_execute_compiled_primitive`), run on the same buffer, do raise
`FloatingPointError` naming the producing primitive, which is the evident
intent. -/
theorem execute_compiled_nan_flag_bug :
    executeCompiled true false ⟨0⟩ 0
        (fun _ => [⟨0, some ⟨[1], .float32, [.nan]⟩, 7⟩])
        [fun buf => .deviceArray ⟨.shaped [1] .float32, some buf, none⟩]
        [.array ⟨[1], .float32, [.fin 1]⟩]
      = .error (.nameError "out_buf")
    ∧ executeCompiled false false ⟨0⟩ 0
        (fun _ => [⟨0, some ⟨[1], .float32, [.nan]⟩, 7⟩])
        [fun buf => .deviceArray ⟨.shaped [1] .float32, some buf, none⟩]
        [.array ⟨[1], .float32, [.fin 1]⟩]
      = .ok [.deviceArray ⟨.shaped [1] .float32,
          some ⟨0, some ⟨[1], .float32, [.nan]⟩, 7⟩, none⟩]
    ∧ checkNansBuf "xla_call" ⟨0, some ⟨[1], .float32, [.nan]⟩, 7⟩
      = .error (.floatingPointError "invalid value (nan) encountered in xla_call")
    ∧ executeCompiledPrimitive true false ⟨0⟩ 0
        (fun _ => ⟨0, some ⟨[1], .float32, [.nan]⟩, 7⟩) "sin"
        (fun buf => .deviceArray ⟨.shaped [1] .float32, some buf, none⟩)
        [.array ⟨[1], .float32, [.fin 1]⟩]
      = .error (.floatingPointError "invalid value (nan) encountered in sin") :=
  ⟨rfl, rfl, rfl, rfl⟩

/-- C4: the jit-call boundary catches exactly `FloatingPointError` (the
numeric-instability error) and then runs the uncompiled fallback exactly
once, returning its outcome; a successful compiled run is returned as is and
every other error kind propagates with no retry. -/
theorem xla_call_impl_fallback {V : Type} (cr fb : Except PyErr V) :
    ((∃ m, cr = .error (.floatingPointError m)) → xlaCallImpl cr fb = (fb, 1))
    ∧ (∀ v, cr = .ok v → xlaCallImpl cr fb = (.ok v, 0))
    ∧ (∀ e, cr = .error e → e.isFloatingPointError = false →
        xlaCallImpl cr fb = (.error e, 0)) := by
  refine ⟨fun h => ?_, fun v hv => ?_, fun e he hfp => ?_⟩
  · obtain ⟨m, hm⟩ := h
    subst hm
    simp [xlaCallImpl, PyErr.isFloatingPointError]
  · subst hv
    rfl
  · subst he
    simp [xlaCallImpl, hfp]

/-- Witness for C4: a `FloatingPointError` outcome triggers the single
fallback run; a `TypeError` outcome propagates with no fallback. -/
theorem xla_call_impl_fallback_witness :
    xlaCallImpl (.error (.floatingPointError "invalid value (nan) encountered in xla_call"))
        (.ok (42 : Nat)) = (.ok 42, 1)
    ∧ xlaCallImpl (.error (.typeError "boom")) (.ok (0 : Nat))
      = (.error (.typeError "boom"), 0) :=
  ⟨(xla_call_impl_fallback _ _).1 ⟨_, rfl⟩,
   (xla_call_impl_fallback _ _).2.2 _ rfl (by decide)⟩

/-- C5 counterexample: for the axis environment with sizes [2,3] and 6
replicas, grouping by the first axis name yields the group list
[[0,3],[1,4],[2,5]] — 3 groups, not the 2 groups of 3 the claim states. -/
theorem axis_groups_first_axis_counterexample :
    axis_groups ⟨6, ["i", "j"], [2, 3]⟩ (.single "i")
      = some [[0, 3], [1, 4], [2, 5]]
    ∧ ([[0, 3], [1, 4], [2, 5]] : List (List Nat)).length ≠ 2 := by
  decide

/-- C5 amended: for an axis environment with axis sizes [2,3] and 6 total
replicas, grouping by the first axis name yields 3 groups of 2 replica
indices each, and the groups partition the index set 0..5 exactly (every
index occurs in exactly one group). -/
theorem axis_groups_first_axis_partition :
    axis_groups ⟨6, ["i", "j"], [2, 3]⟩ (.single "i")
      = some [[0, 3], [1, 4], [2, 5]]
    ∧ ([[0, 3], [1, 4], [2, 5]] : List (List Nat)).length = 3
    ∧ ([[0, 3], [1, 4], [2, 5]] : List (List Nat)).all
        (fun g => g.length == 2) = true
    ∧ (List.range 6).all
        (fun n => ([[0, 3], [1, 4], [2, 5]] : List (List Nat)).flatten.count n == 1)
      = true := by
  decide

/-- C6 counterexample: on a concrete live device array, after `delete()` the
`shape` property still succeeds (it reads the abstract value with no
deletion check), and a second `delete()` raises `AttributeError` — which is
not the use-after-delete `ValueError` — so neither part of the claim holds
as stated. -/
theorem device_array_delete_counterexample :
    DeviceArrayM.delete
        ⟨.shaped [3] .float32,
         some ⟨0, some ⟨[3], .float32, [.fin 1, .fin 2, .fin 3]⟩, 0⟩, none⟩
      = .ok ⟨.shaped [3] .float32, none, none⟩
    ∧ DeviceArrayM.shapeProp ⟨.shaped [3] .float32, none, none⟩ = .ok [3]
    ∧ DeviceArrayM.delete ⟨.shaped [3] .float32, none, none⟩
      = .error (.attributeError "NoneType object has no attribute delete")
    ∧ (PyErr.attributeError "NoneType object has no attribute delete"
        ≠ .valueError "DeviceValue has been deleted.") :=
  ⟨rfl, rfl, rfl, fun h => nomatch h⟩

/-- C6 amended: deleting a live device array clears its buffer and cached
host value; a second `delete()` fails with `AttributeError` (the wrapper is
left unchanged, so state is never corrupted); after deletion every content
access (`_value`, `block_until_ready`, `copy_to_host_async`) fails with the
use-after-delete error, while the metadata properties `shape` and `dtype`
still succeed, reading the stored abstract value. -/
theorem device_array_delete_lifecycle (x : DeviceArrayM) (b : Buffer)
    (toPy : Buffer → HostArray) (h : x.deviceBuffer = some b) :
    DeviceArrayM.delete x = .ok { x with deviceBuffer := none, npyValue := none }
    ∧ DeviceArrayM.delete { x with deviceBuffer := none, npyValue := none }
      = .error (.attributeError "NoneType object has no attribute delete")
    ∧ DeviceArrayM.value toPy { x with deviceBuffer := none, npyValue := none }
      = .error (.valueError "DeviceValue has been deleted.")
    ∧ DeviceArrayM.blockUntilReady { x with deviceBuffer := none, npyValue := none }
      = .error (.valueError "DeviceValue has been deleted.")
    ∧ DeviceArrayM.copyToHostAsync { x with deviceBuffer := none, npyValue := none }
      = .error (.valueError "DeviceValue has been deleted.")
    ∧ DeviceArrayM.shapeProp { x with deviceBuffer := none, npyValue := none }
      = .ok x.aval.shapeD
    ∧ DeviceArrayM.dtypeProp { x with deviceBuffer := none, npyValue := none }
      = .ok x.aval.dtypeD := by
  refine ⟨?_, rfl, rfl, rfl, rfl, rfl, rfl⟩
  simp [DeviceArrayM.delete, h]

/-- Witness for C6: the lifecycle theorem applied to a concrete live device
array. -/
theorem device_array_delete_lifecycle_witness :
    DeviceArrayM.delete
        ⟨.shaped [2] .int32, some ⟨0, some ⟨[2], .int32, [.fin 4, .fin 5]⟩, 1⟩, none⟩
      = .ok ⟨.shaped [2] .int32, none, none⟩
    ∧ DeviceArrayM.shapeProp ⟨.shaped [2] .int32, none, none⟩ = .ok [2] :=
  ⟨(device_array_delete_lifecycle
      ⟨.shaped [2] .int32, some ⟨0, some ⟨[2], .int32, [.fin 4, .fin 5]⟩, 1⟩, none⟩
      ⟨0, some ⟨[2], .int32, [.fin 4, .fin 5]⟩, 1⟩ (fun b => b.contents.getD ⟨[], .bool, []⟩)
      rfl).1,
   (device_array_delete_lifecycle
      ⟨.shaped [2] .int32, some ⟨0, some ⟨[2], .int32, [.fin 4, .fin 5]⟩, 1⟩, none⟩
      ⟨0, some ⟨[2], .int32, [.fin 4, .fin 5]⟩, 1⟩ (fun b => b.contents.getD ⟨[], .bool, []⟩)
      rfl).2.2.2.2.2.1⟩

/-- C7: calling the memoized single-primitive compilation entry point a
second time with the same key (primitive identity plus abstract argument
signature) returns the identical cached artifact, leaves the cache
unchanged, and does not invoke the compiler again. -/
theorem xla_primitive_callable_cache_hit (c : PrimitiveCache) (k : PrimKey) :
    (xlaPrimitiveCallableCached ((xlaPrimitiveCallableCached c k).2.1) k).1
      = (xlaPrimitiveCallableCached c k).1
    ∧ (xlaPrimitiveCallableCached ((xlaPrimitiveCallableCached c k).2.1) k).2.1
      = (xlaPrimitiveCallableCached c k).2.1
    ∧ (xlaPrimitiveCallableCached ((xlaPrimitiveCallableCached c k).2.1) k).2.2
      = false := by
  unfold xlaPrimitiveCallableCached
  cases h : c.entries.lookup k with
  | some v => simp [h]
  | none => simp [h, List.lookup]

/-- C9: whenever the device-put primitive succeeds, abstractifying its
result yields the same abstract value as abstractifying the input — the
round trip through explicit host-to-device placement preserves the abstract
value. -/
theorem abstractify_device_put_roundtrip (enableX64 : Bool) (be : Backend)
    (x : PyVal) (deviceNum : Nat) (y : PyVal) (be2 : Backend)
    (h : device_put_impl enableX64 be x deviceNum = .ok (y, be2)) :
    abstractify enableX64 y = abstractify enableX64 x := by
  cases x with
  | unit =>
    simp [device_put_impl, abstractify, aval_to_result_handler, device_put,
          canonicalizeDtypePy, bufferFromPyval] at h
    simp [← h.1, abstractify]
  | array a =>
    simp [device_put_impl, abstractify, aval_to_result_handler, device_put,
          canonicalizeDtypePy, bufferFromPyval, makeShapedArray] at h
    simp [← h.1, abstractify, makeShapedArray]
  | deviceArray d =>
    cases hb : d.deviceBuffer with
    | none =>
      simp [device_put_impl, abstractify, aval_to_result_handler, device_put,
            canonicalizeDtypePy, hb] at h
      cases ha : d.aval <;> simp [ha] at h
    | some b =>
      cases ha : d.aval with
      | abstractUnit =>
        simp [device_put_impl, abstractify, aval_to_result_handler, device_put,
              canonicalizeDtypePy, hb, ha] at h
        by_cases hd : b.device = deviceNum <;>
          simp [hd, copyToDevice] at h <;>
          simp [← h.1, abstractify, ha]
      | shaped s dt =>
        simp [device_put_impl, abstractify, aval_to_result_handler, device_put,
              canonicalizeDtypePy, hb, ha] at h
        by_cases hd : b.device = deviceNum <;>
          simp [hd, copyToDevice] at h <;>
          simp [← h.1, abstractify, ha]
      | concrete s dt dat =>
        simp [device_put_impl, abstractify, aval_to_result_handler, device_put,
              canonicalizeDtypePy, hb, ha] at h
        by_cases hd : b.device = deviceNum <;>
          simp [hd, copyToDevice] at h <;>
          simp [← h.1, abstractify, ha]
  | other t =>
    simp [device_put_impl, abstractify] at h

/-- Witness for C9: placing a float64 host array on device 0 with the 64-bit
toggle disabled succeeds, and the result abstractifies to the same abstract
value as the input. -/
theorem abstractify_device_put_roundtrip_witness :
    device_put_impl false ⟨0⟩ (.array ⟨[2], .float64, [.fin 1, .fin 2]⟩) 0
      = .ok (.deviceArray ⟨.shaped [2] .float32,
          some ⟨0, some ⟨[2], .float32, [.fin 1, .fin 2]⟩, 0⟩, none⟩, ⟨1⟩)
    ∧ abstractify false (.deviceArray ⟨.shaped [2] .float32,
        some ⟨0, some ⟨[2], .float32, [.fin 1, .fin 2]⟩, 0⟩, none⟩)
      = abstractify false (.array ⟨[2], .float64, [.fin 1, .fin 2]⟩) :=
  ⟨rfl,
   abstractify_device_put_roundtrip false ⟨0⟩
     (.array ⟨[2], .float64, [.fin 1, .fin 2]⟩) 0
     (.deviceArray ⟨.shaped [2] .float32,
        some ⟨0, some ⟨[2], .float32, [.fin 1, .fin 2]⟩, 0⟩, none⟩) ⟨1⟩ rfl⟩

/-- C10: `device_put` on a value that is already a device array returns the
existing backend buffer itself (no new buffer is allocated) when that buffer
already lives on the requested device ordinal, and otherwise returns a fresh
copy on the requested ordinal with the same contents; the wrapper itself is
never modified (the embedding is pure and the handler for device arrays is
the identity). -/
theorem device_put_device_array_reuse (enableX64 : Bool) (be : Backend)
    (d : DeviceArrayM) (b : Buffer) (deviceNum : Nat)
    (h : d.deviceBuffer = some b) (hwf : b.id < be.nextId) :
    (b.device = deviceNum →
      device_put enableX64 be (.deviceArray d) deviceNum = .ok (b, be))
    ∧ (b.device ≠ deviceNum →
      device_put enableX64 be (.deviceArray d) deviceNum
        = .ok (⟨deviceNum, b.contents, be.nextId⟩, ⟨be.nextId + 1⟩)
      ∧ be.nextId ≠ b.id) := by
  constructor
  · intro hd
    simp [device_put, canonicalizeDtypePy, h, hd]
  · intro hd
    refine ⟨?_, by omega⟩
    simp [device_put, canonicalizeDtypePy, h, hd, copyToDevice]

/-- Witness for C10: a buffer already on device 0 is returned as is; the
same buffer requested on device 1 is copied to a fresh buffer there. -/
theorem device_put_device_array_reuse_witness :
    device_put false ⟨6⟩
        (.deviceArray ⟨.shaped [1] .float32,
          some ⟨0, some ⟨[1], .float32, [.fin 3]⟩, 5⟩, none⟩) 0
      = .ok (⟨0, some ⟨[1], .float32, [.fin 3]⟩, 5⟩, ⟨6⟩)
    ∧ device_put false ⟨6⟩
        (.deviceArray ⟨.shaped [1] .float32,
          some ⟨0, some ⟨[1], .float32, [.fin 3]⟩, 5⟩, none⟩) 1
      = .ok (⟨1, some ⟨[1], .float32, [.fin 3]⟩, 6⟩, ⟨7⟩) :=
  ⟨(device_put_device_array_reuse false ⟨6⟩
      ⟨.shaped [1] .float32, some ⟨0, some ⟨[1], .float32, [.fin 3]⟩, 5⟩, none⟩
      ⟨0, some ⟨[1], .float32, [.fin 3]⟩, 5⟩ 0 rfl (by decide)).1 rfl,
   ((device_put_device_array_reuse false ⟨6⟩
      ⟨.shaped [1] .float32, some ⟨0, some ⟨[1], .float32, [.fin 3]⟩, 5⟩, none⟩
      ⟨0, some ⟨[1], .float32, [.fin 3]⟩, 5⟩ 1 rfl (by decide)).2 (by decide)).1⟩

end JaxXla
